import Mathlib

/-!
# Verification of the pursuit / stealth core of `horse-head-farms`

Shallow embedding, in Lean 4, of the algorithmic core of the repository:

* the per-participant stealth model (`src/player.js`: `updateStealth`,
  `checkDynamicHideZones`);
* the pursuer's perception, decision, steering, capture and stuck-recovery
  logic (`src/aiSeeker.js`: `getVisiblePlayers`, `getAudiblePlayers`,
  `getClosestPlayer`, `makeDecision`, `chase`, `catchPlayer`, `moveTowards`,
  the stuck-detection block of `update`);
* the walkability grid construction (`src/NavigationGrid.js`: `generateGrid`).

Real-valued quantities are modelled over `ℚ`.  The source compares Euclidean
distances (square roots) against nonnegative bounds; the embedding compares
squared distances against squared bounds, which is equivalent.  Results of the
physics collaborator (`world.raycastClosest`) and of the geometric cone test
are inputs to the embedded functions, exactly as the numeric data flow of the
source consumes them.
-/

namespace HorseHeadFarms

/-- A 3D vector with rational coordinates (models `THREE.Vector3` / `CANNON.Vec3`). -/
structure Vec3 where
  x : ℚ
  y : ℚ
  z : ℚ
deriving DecidableEq, Repr

/-- Squared Euclidean distance.  The source computes `a.distanceTo(b)` (a square
root) and compares it against nonnegative thresholds `c`; we compare the square
against `c ^ 2`, which is equivalent since both sides are nonnegative. -/
def distSq (a b : Vec3) : ℚ :=
  (a.x - b.x) ^ 2 + (a.y - b.y) ^ 2 + (a.z - b.z) ^ 2

/-! ## Stealth model (`src/player.js`) -/

/-- `Player.updateStealth` (src/player.js:89-113).  Inputs are the fields the
method reads: `inHideSpot`, `inDynamicHideZone`, `currentDynamicZoneBonus`,
`isCrouching`, and `speed = body.velocity.length()` (the physics body always
exists after construction).  Clamp constants are `minStealth = 0`,
`maxStealth = 100`. -/
def updateStealth (inHideSpot inDynamicHideZone : Bool) (currentDynamicZoneBonus : ℚ)
    (isCrouching : Bool) (speed : ℚ) : ℚ :=
  let base1 : ℚ := if inHideSpot then 85 else 5
  let base2 : ℚ := if inDynamicHideZone then base1 + currentDynamicZoneBonus else base1
  let base3 : ℚ := if isCrouching then base2 + 15 else base2
  let base4 : ℚ :=
    if 0.1 < speed ∧ speed ≤ 2.5 then base3 - 5
    else if 2.5 < speed then base3 - 15
    else base3
  max 0 (min 100 base4)

/-- Geometry of a dynamic concealment zone (entries of
`environment.dynamicHideZones`): a sphere or an axis-aligned box. -/
inductive ZoneShape where
  | sphere (center : Vec3) (radius : ℚ)
  | box (lo hi : Vec3)
deriving DecidableEq, Repr

/-- A dynamic concealment zone with its stealth bonus. -/
structure Zone where
  shape : ZoneShape
  stealthBonus : ℚ
deriving DecidableEq, Repr

/-- Zone membership test of `Player.checkDynamicHideZones` (src/player.js:133-147):
sphere case `playerPosition.distanceTo(zone.center) < zone.radius` (compared via
squares; the radii in the environment are positive), box case componentwise
bounds checks. -/
def playerInZone (pos : Vec3) (z : Zone) : Bool :=
  match z.shape with
  | .sphere c r => decide (distSq pos c < r ^ 2)
  | .box lo hi =>
      decide (lo.x ≤ pos.x ∧ pos.x ≤ hi.x ∧ lo.y ≤ pos.y ∧ pos.y ≤ hi.y ∧
        lo.z ≤ pos.z ∧ pos.z ≤ hi.z)

/-- Loop body of `Player.checkDynamicHideZones` (src/player.js:133-155):
if the player is in the zone, set `inAnyZone` and raise `bestBonus` on strict
improvement (`zone.stealthBonus > bestBonus`). -/
def zoneStep (pos : Vec3) (acc : Bool × ℚ) (z : Zone) : Bool × ℚ :=
  if playerInZone pos z then
    (true, if acc.2 < z.stealthBonus then z.stealthBonus else acc.2)
  else acc

/-- `Player.checkDynamicHideZones` (src/player.js:115-159): returns the pair
`(inDynamicHideZone, currentDynamicZoneBonus)`.  `bestBonus` starts at 0; the
guard clauses for a missing environment/body or an empty zone list yield
`(false, 0)`, which coincides with the fold over the empty list. -/
def checkDynamicHideZones (pos : Vec3) (zones : List Zone) : Bool × ℚ :=
  let r := zones.foldl (zoneStep pos) (false, 0)
  (r.1, if r.1 then r.2 else 0)

/-! ## Perception (`src/aiSeeker.js`) -/

/-- JS `x || d` on a numeric field: the default replaces a falsy (zero) value. -/
def jsOr (x d : ℚ) : ℚ := if x = 0 then d else x

/-- Observation of one participant, as read by `AISeeker.getVisiblePlayers` and
`AISeeker.getAudiblePlayers` (src/aiSeeker.js:254-355).  Quantities the source
derives from positions, from `Math.acos`, or from the physics collaborator are
recorded as fields:
* `pos` — `player.position`;
* `dist` — `this.position.distanceTo(player.position)`;
* `inView` — outcome of the view-cone test `angle ≤ viewAngle / 2` on the
  normalized direction against the facing vector;
* `eyeDist` — `aiEyePosition.distanceTo(rayTo)` for the line-of-sight ray;
* `losHit` — closest hit of the line-of-sight ray through the physics
  collaborator: `some d` for a hit at distance `d` from the eye, `none` for no
  hit;
* `speed` — `player.velocity.length()`. -/
structure PlayerObs where
  id : ℕ
  isAlive : Bool
  pos : Vec3
  dist : ℚ
  stealthLevel : ℚ
  maxStealth : ℚ
  isCrouching : Bool
  isRunning : Bool
  speed : ℚ
  inView : Bool
  eyeDist : ℚ
  losHit : Option ℚ
  health : ℚ := 100
deriving DecidableEq, Repr

/-- Where the per-participant visibility evaluation of
`AISeeker.getVisiblePlayers` ends: each `continue` of the loop body is one
rejection reason, in source order (src/aiSeeker.js:257-314). -/
inductive VisOutcome where
  | skippedInvalid
  | rejectedDistance
  | rejectedChance
  | rejectedAngle
  | rejectedOccluded
  | visible
deriving DecidableEq, Repr

/-- `detectionChance` (src/aiSeeker.js:274-275):
`(1 - playerStealthLevel / playerMaxStealth) * baseDetectionChance` with
`playerStealthLevel = player.stealthLevel || 0`,
`playerMaxStealth = player.maxStealth || 100`, `baseDetectionChance = 1`. -/
def detectionChance (p : PlayerObs) : ℚ :=
  (1 - jsOr p.stealthLevel 0 / jsOr p.maxStealth 100) * 1

/-- Occlusion test on the line-of-sight ray (src/aiSeeker.js:302-312): the ray
hit and the hit is nearer than the participant minus the 0.5 body-radius
tolerance. -/
def occluded (p : PlayerObs) : Bool :=
  match p.losHit with
  | some d => decide (d < p.eyeDist - 0.5)
  | none => false

/-- One iteration of the `AISeeker.getVisiblePlayers` loop
(src/aiSeeker.js:257-314), for one participant and one fresh random sample `r`
(`Math.random()`).  Constants: `viewDistance = 15`; the view-cone test result
is the field `inView`. -/
def visOutcome (p : PlayerObs) (r : ℚ) : VisOutcome :=
  if ¬ p.isAlive then .skippedInvalid
  else
    let afterGates : VisOutcome :=
      if ¬ p.inView then .rejectedAngle
      else if occluded p then .rejectedOccluded
      else .visible
    if 90 ≤ jsOr p.stealthLevel 0 ∧ p.dist ≤ 3 then afterGates
    else if 15 < p.dist then .rejectedDistance
    else if detectionChance p ≤ r then .rejectedChance
    else afterGates

/-- `AISeeker.getVisiblePlayers` (src/aiSeeker.js:254-318): the survivors of the
per-participant evaluation.  `rnd i` is the fresh `Math.random()` sample
consumed while evaluating the `i`-th participant. -/
def getVisiblePlayers (players : List PlayerObs) (rnd : ℕ → ℚ) : List PlayerObs :=
  ((players.enum).filter (fun pi => visOutcome pi.2 (rnd pi.1) = .visible)).map Prod.snd

/-- `noiseLevel` of `AISeeker.getAudiblePlayers` (src/aiSeeker.js:332-347):
1.0 if running, 0.5 if moving faster than the 0.1 epsilon, else 0; halved if
crouching; scaled by `1 - (stealthLevel / maxStealth) * 0.5`. -/
def noiseLevel (p : PlayerObs) : ℚ :=
  let n1 : ℚ := if p.isRunning then 1 else if 0.1 < p.speed then 0.5 else 0
  let n2 : ℚ := if p.isCrouching then n1 * 0.5 else n1
  n2 * (1 - p.stealthLevel / p.maxStealth * 0.5)

/-- Per-participant audibility judgement of `AISeeker.getAudiblePlayers`
(src/aiSeeker.js:320-355): a valid living participant is audible iff
`noiseLevel > 0 && distance < hearingDistance * noiseLevel`, with
`hearingDistance = 8`. -/
def audibleCheck (p : PlayerObs) : Bool :=
  p.isAlive && decide (0 < noiseLevel p ∧ p.dist < 8 * noiseLevel p)

/-- `AISeeker.getAudiblePlayers` (src/aiSeeker.js:320-355). -/
def getAudiblePlayers (players : List PlayerObs) : List PlayerObs :=
  players.filter audibleCheck

/-! ## Decision making (`src/aiSeeker.js`) -/

/-- The pursuer's finite-state-machine states (src/aiSeeker.js:15). -/
inductive AIState where
  | idle
  | patrolling
  | chasing
  | searching
deriving DecidableEq, Repr

/-- The decision-relevant part of the seeker state read and written by
`AISeeker.makeDecision` (src/aiSeeker.js:222-252). -/
structure DecisionState where
  state : AIState
  target : Option PlayerObs
  lastKnownPosition : Option Vec3
  searchTime : ℚ
deriving DecidableEq, Repr

/-- `AISeeker.getClosestPlayer` (src/aiSeeker.js:357-370): linear scan with
`closestDistance` starting at `Infinity` (modelled by the `none` accumulator)
and strict `<` comparison, so the first participant attaining the minimum
distance is kept. -/
def getClosestPlayer (players : List PlayerObs) : Option PlayerObs :=
  (players.foldl
    (fun (acc : Option PlayerObs × Option ℚ) p =>
      match acc.2 with
      | none => (some p, some p.dist)
      | some d => if p.dist < d then (some p, some p.dist) else acc)
    (none, none)).1

/-- Recursive form of the `getClosestPlayer` scan once a current best `c` is
held: replace it exactly on strict improvement. -/
def closestFrom (c : PlayerObs) : List PlayerObs → PlayerObs
  | [] => c
  | p :: ps => if p.dist < c.dist then closestFrom p ps else closestFrom c ps

/-- `p` is the first participant of `l` attaining the minimal distance:
it is a minimum, and every participant listed before it is strictly farther.
This is the tie-break by iteration order. -/
def firstMin (p : PlayerObs) (l : List PlayerObs) : Prop :=
  (∀ q ∈ l, p.dist ≤ q.dist) ∧
  ∃ l1 l2, l = l1 ++ p :: l2 ∧ ∀ q ∈ l1, p.dist < q.dist

/-- `AISeeker.makeDecision` (src/aiSeeker.js:222-252).  The search clock is
advanced by `decisionInterval / 1000 = 1` second per evaluation and the search
expires strictly after 10 seconds; `this.target` is reset to null on entry. -/
def makeDecision (s : DecisionState) (visiblePlayers audiblePlayers : List PlayerObs) :
    DecisionState :=
  let s0 := { s with target := (none : Option PlayerObs) }
  if visiblePlayers ≠ [] then
    let t := getClosestPlayer visiblePlayers
    { s0 with
      state := .chasing
      target := t
      lastKnownPosition := t.map PlayerObs.pos }
  else if audiblePlayers ≠ [] then
    let t := getClosestPlayer audiblePlayers
    { s0 with
      state := .searching
      target := t
      lastKnownPosition := t.map PlayerObs.pos
      searchTime := 0 }
  else if s.lastKnownPosition.isSome ∧ s.state = .searching then
    let st := s.searchTime + 1
    if 10 < st then
      { s0 with
        state := .patrolling
        lastKnownPosition := none
        searchTime := st }
    else { s0 with searchTime := st }
  else { s0 with state := .patrolling }

/-! ## Steering (`src/aiSeeker.js` `moveTowards`) -/

/-- The three feeler rays of `AISeeker.moveTowards` (src/aiSeeker.js:451), in
iteration order: angles −π/6, 0, +π/6 around the desired direction. -/
inductive Feeler where
  | left
  | center
  | right
deriving DecidableEq, Repr

/-- The feeler angles array `[-Math.PI / 6, 0, Math.PI / 6]` in iteration
order. -/
def feelerOrder : List Feeler := [.left, .center, .right]

/-- Position of a feeler in the iteration order. -/
def feelerIdx : Feeler → ℕ
  | .left => 0
  | .center => 1
  | .right => 2

/-- JS `a > b` on ray distances where a missing hit is `Infinity` (`none`):
`Infinity > Infinity` is false, `Infinity > x` is true, `x > Infinity` is
false. -/
def infGt : Option ℚ → Option ℚ → Bool
  | none, none => false
  | none, some _ => true
  | some _, none => false
  | some a, some b => decide (b < a)

/-- The feeler loop of `AISeeker.moveTowards` (src/aiSeeker.js:460-487).
The accumulator holds `(chosenDirection, bestDistance, foundClearPath)`; the
initial `chosenDirection = baseMoveDirection.clone()` is the 0° direction,
i.e. the center feeler's direction; `bestDistance` starts at `-1`;
`rayDist f` is `result.hasHit ? result.distance : Infinity` for feeler `f`.
On strict improvement the feeler is chosen and, if its distance exceeds the
threshold `feelerDistanceThreshold = 2.5`, `foundClearPath` is set. -/
def feelerScan (rayDist : Feeler → Option ℚ) : Feeler × Option ℚ × Bool :=
  feelerOrder.foldl
    (fun (acc : Feeler × Option ℚ × Bool) f =>
      let d := rayDist f
      if infGt d acc.2.1 then (f, d, acc.2.2 || infGt d (some 2.5))
      else acc)
    (.center, some (-1), false)

/-- Speed scaling of `AISeeker.moveTowards` (src/aiSeeker.js:489-497): applied
only when no clear path was found; factor 0.2 when `bestDistance < 1.0`, 0.5
when `bestDistance < feelerDistanceThreshold = 2.5`, else 1. -/
def speedFactor (best : Option ℚ) (foundClearPath : Bool) : ℚ :=
  if ¬ foundClearPath then
    if infGt (some 1) best then 0.2
    else if infGt (some 2.5) best then 0.5
    else 1
  else 1

/-! ## Stuck detection (`src/aiSeeker.js` `update`, lines 192-214) -/

/-- One sampling interval of the stuck-detection block (src/aiSeeker.js:194-213):
`low` is the outcome of `distanceToSquared(lastPositionForStuckCheck) < 0.1`;
a low sample increments `stuckCounter`, and at 2 the recovery perturbation
fires and the counter resets; a significant displacement resets the counter.
Returns the new counter and whether recovery fired. -/
def stuckStep (counter : ℕ) (low : Bool) : ℕ × Bool :=
  if low then
    if 2 ≤ counter + 1 then (0, true) else (counter + 1, false)
  else (0, false)

/-- Recovery firings over consecutive sampling intervals, starting from
counter `c`. -/
def stuckTriggers (c : ℕ) : List Bool → List Bool
  | [] => []
  | low :: rest => (stuckStep c low).2 :: stuckTriggers (stuckStep c low).1 rest

/-! ## Walkability grid (`src/NavigationGrid.js`) -/

/-- Result of the downward ground ray for one cell (`world.raycastClosest` in
`generateGrid`, src/NavigationGrid.js:51-72): the hit point's height
`hitPointWorld.y` and the slope angle `Math.acos(hitNormal · up)`.  The
arccosine is a bijection of the normal's vertical component, so the angle
itself is the recorded oracle datum. -/
structure GroundHit where
  y : ℚ
  slopeAngle : ℚ
deriving DecidableEq, Repr

/-- An axis-aligned bounding box (`CANNON.AABB`). -/
structure AABB where
  lo : Vec3
  hi : Vec3
deriving DecidableEq, Repr

/-- A body passed to the obstacle pass (src/NavigationGrid.js:81-122): whether
`body.shapes` is non-empty, whether `body.type === CANNON.Body.STATIC`, whether
`body.shapes[0] instanceof CANNON.Heightfield` (the ground/terrain body), and
its AABB. -/
structure SBody where
  hasShapes : Bool
  isStatic : Bool
  isHeightfield : Bool
  aabb : AABB
deriving DecidableEq, Repr

/-- Constructor parameters of `NavigationGrid` (src/NavigationGrid.js:23-34). -/
structure GridParams where
  cellSize : ℚ
  widthCells : ℕ
  depthCells : ℕ
  worldMinX : ℚ
  worldMinZ : ℚ
  maxSlopeAngle : ℚ
deriving DecidableEq, Repr

/-- A grid node (`GridNode`, src/NavigationGrid.js:6-20): world position of the
cell center on the ground and the walkable flag.  The A* cost fields and the
surface normal are never read by the walkability computation and are omitted. -/
structure GridNode where
  worldPos : Vec3
  walkable : Bool
deriving DecidableEq, Repr

/-- Cell-center world X (src/NavigationGrid.js:44). -/
def cellWorldX (g : GridParams) (gx : ℕ) : ℚ :=
  g.worldMinX + gx * g.cellSize + g.cellSize / 2

/-- Cell-center world Z (src/NavigationGrid.js:45). -/
def cellWorldZ (g : GridParams) (gz : ℕ) : ℚ :=
  g.worldMinZ + gz * g.cellSize + g.cellSize / 2

/-- First pass of `NavigationGrid.generateGrid` (src/NavigationGrid.js:41-77):
one downward ray per cell; provisionally walkable iff the ray hit and the slope
angle is ≤ `maxSlopeAngle`; with no hit, `worldY` stays 0 and the cell is
unwalkable. -/
def groundPass (g : GridParams) (ray : ℕ → ℕ → Option GroundHit) (gx gz : ℕ) :
    GridNode :=
  match ray gx gz with
  | some h =>
      { worldPos := ⟨cellWorldX g gx, h.y, cellWorldZ g gz⟩
        walkable := decide (h.slopeAngle ≤ g.maxSlopeAngle) }
  | none =>
      { worldPos := ⟨cellWorldX g gx, 0, cellWorldZ g gz⟩
        walkable := false }

/-- The cell-blocking condition of the obstacle pass, for a node at its final
world position (src/NavigationGrid.js:107-119): the node's center lies within
the body's AABB horizontally, its recorded ground height lies within the
vertical span with the 0.1 tolerance, and the body is a static non-Heightfield
body with shapes. -/
def blocksNode (b : SBody) (node : GridNode) : Prop :=
  b.hasShapes = true ∧ b.isStatic = true ∧ b.isHeightfield = false ∧
  b.aabb.lo.x ≤ node.worldPos.x ∧ node.worldPos.x ≤ b.aabb.hi.x ∧
  b.aabb.lo.z ≤ node.worldPos.z ∧ node.worldPos.z ≤ b.aabb.hi.z ∧
  b.aabb.lo.y - 0.1 ≤ node.worldPos.y ∧ node.worldPos.y ≤ b.aabb.hi.y + 0.1

instance (b : SBody) (node : GridNode) : Decidable (blocksNode b node) := by
  unfold blocksNode
  infer_instance

/-- One body's iteration of the obstacle pass (src/NavigationGrid.js:81-122),
expressed pointwise: the loops over `minGx..maxGx`, `minGz..maxGz` touch
pairwise distinct cells, so the mutation is the pointwise update of every cell
inside the computed index ranges that is still walkable and meets the blocking
condition.  Bodies without shapes are skipped. -/
def obstaclePassBody (g : GridParams) (b : SBody) (grid : ℕ → ℕ → GridNode)
    (gx gz : ℕ) : GridNode :=
  let node := grid gx gz
  let minGx : ℤ := max 0 ⌊(b.aabb.lo.x - g.worldMinX) / g.cellSize⌋
  let maxGx : ℤ := min ((g.widthCells : ℤ) - 1) ⌊(b.aabb.hi.x - g.worldMinX) / g.cellSize⌋
  let minGz : ℤ := max 0 ⌊(b.aabb.lo.z - g.worldMinZ) / g.cellSize⌋
  let maxGz : ℤ := min ((g.depthCells : ℤ) - 1) ⌊(b.aabb.hi.z - g.worldMinZ) / g.cellSize⌋
  if b.hasShapes = true ∧ minGx ≤ (gx : ℤ) ∧ (gx : ℤ) ≤ maxGx ∧
      minGz ≤ (gz : ℤ) ∧ (gz : ℤ) ≤ maxGz ∧ node.walkable = true ∧ blocksNode b node
  then { node with walkable := false }
  else node

/-- `NavigationGrid.generateGrid` (src/NavigationGrid.js:36-124): the ground
pass followed by the obstacle pass over all supplied static obstacle bodies. -/
def generateGrid (g : GridParams) (ray : ℕ → ℕ → Option GroundHit)
    (bodies : List SBody) : ℕ → ℕ → GridNode :=
  bodies.foldl (fun grid b => obstaclePassBody g b grid) (groundPass g ray)

/-! ## Capture loop (`src/aiSeeker.js` `update` / `chase` / `catchPlayer`) -/

/-- A capture event, `room.send({type: 'playerCaught', playerId, position})`
(src/aiSeeker.js:562-566). -/
structure CaptureEvent where
  playerId : ℕ
  position : Vec3
deriving DecidableEq, Repr

/-- `Player.takeDamage` and `Player.die` (src/player.js:762-786): health floors
at 0 and death (isAlive := false) follows at 0 health.  The `health` field of
`PlayerObs` is `player.health` (src/player.js:20, initial value 100). -/
def takeDamage (p : PlayerObs) (amount : ℚ) : PlayerObs :=
  let h := max 0 (p.health - amount)
  if h ≤ 0 then { p with health := h, isAlive := false }
  else { p with health := h }

/-- The trace state of the pursuer, the fields of `AISeeker` the decision and
capture logic reads and writes (src/aiSeeker.js:15-32).  The target is stored
by id; the source holds a live object reference, which the id lookup in the
(single, current) player list reproduces. -/
structure SeekerSim where
  state : AIState
  target : Option ℕ
  lastKnownPosition : Option Vec3
  searchTime : ℚ
  lastDecisionTime : ℤ
  pos : Vec3
deriving DecidableEq, Repr

/-- The decision step inside `AISeeker.update` (src/aiSeeker.js:164-168 calling
`makeDecision`): perception over the current players, then the transition;
`lastDecisionTime` is set to `now`.  `makeDecision` nulls the incoming target
before reading anything else, so the stored target id is irrelevant to it. -/
def decideSim (s : SeekerSim) (players : List PlayerObs) (rnd : ℕ → ℚ) (now : ℤ) :
    SeekerSim :=
  let vis := getVisiblePlayers players rnd
  let aud := getAudiblePlayers players
  let d := makeDecision ⟨s.state, none, s.lastKnownPosition, s.searchTime⟩ vis aud
  { s with
    state := d.state
    target := d.target.map PlayerObs.id
    lastKnownPosition := d.lastKnownPosition
    searchTime := d.searchTime
    lastDecisionTime := now }

/-- `AISeeker.chase` plus `catchPlayer` (src/aiSeeker.js:389-416 and 551-577):
no target (or a stale reference) falls back to Patrolling; within the capture
radius (`distance < 1.5`, compared via squares) the target takes 100 damage
through the participant interface, and the capture event is sent only behind
the `if (this.room)` guard (src/aiSeeker.js:561-569) — `room` here is the
truthiness of `this.room`, which the AISeeker constructor never receives and
no code in the repository ever assigns, so in the program it is always false
and the warning branch runs instead; state and target are left as they are.
Otherwise the pursuer moves toward the target (locomotion abstracted into the
`movedPos` input; it is produced by `moveTowards`, modelled by `feelerScan`,
and touches no decision state) and records the target's position as last
known. -/
def chaseSim (room : Bool) (s : SeekerSim) (players : List PlayerObs)
    (movedPos : Vec3) : SeekerSim × List PlayerObs × List CaptureEvent :=
  match s.target with
  | none => ({ s with state := .patrolling }, players, [])
  | some tid =>
    match players.find? (fun p => p.id = tid) with
    | none => ({ s with state := .patrolling }, players, [])
    | some t =>
      if distSq s.pos t.pos < 2.25 then
        (s, players.map (fun p => if p.id = tid then takeDamage p 100 else p),
          if room then [⟨t.id, t.pos⟩] else [])
      else
        ({ s with pos := movedPos, lastKnownPosition := some t.pos }, players, [])

/-- One simulation tick of `AISeeker.update` in the seeking phase
(src/aiSeeker.js:155-220): run the decision step when more than
`decisionInterval = 1000` ms have passed, then the behavior for the current
state.  Patrolling and Idle touch none of the modelled fields (locomotion and
look-around only); Searching falls back to Patrolling when the last known
position is gone (src/aiSeeker.js:419-422).  `room` is the truthiness of the
seeker's `this.room` (never assigned in the repository, hence false in the
program). -/
def updateSim (room : Bool) (s : SeekerSim) (players : List PlayerObs) (now : ℤ)
    (rnd : ℕ → ℚ) (movedPos : Vec3) : SeekerSim × List PlayerObs × List CaptureEvent :=
  let s1 := if 1000 < now - s.lastDecisionTime then decideSim s players rnd now else s
  match s1.state with
  | .chasing => chaseSim room s1 players movedPos
  | .searching =>
      (if s1.lastKnownPosition.isNone then { s1 with state := .patrolling } else s1,
        players, [])
  | _ => (s1, players, [])

/-- An `if`-raise on strict improvement computes the binary maximum. -/
lemma if_lt_eq_max (a b : ℚ) : (if a < b then b else a) = max a b := by
  rcases le_or_lt b a with h | h
  · simp [not_lt.mpr h, max_eq_left h]
  · simp [h, max_eq_right h.le]

/-- The `bestBonus` accumulator of the zone loop computes a running maximum over
the occupied zones. -/
lemma zoneFold_snd (pos : Vec3) (zones : List Zone) (b : Bool) (q : ℚ) :
    (zones.foldl (zoneStep pos) (b, q)).2 =
      (zones.filter (playerInZone pos)).foldl (fun a z => max a z.stealthBonus) q := by
  induction zones generalizing b q with
  | nil => rfl
  | cons z zs ih =>
    by_cases h : playerInZone pos z
    · simp only [List.foldl_cons, List.filter_cons, h, if_pos, zoneStep, ih,
        if_lt_eq_max]
    · simp only [List.foldl_cons, List.filter_cons, h, zoneStep, if_neg, ih,
        Bool.false_eq_true, ite_false]

/-- The `inAnyZone` accumulator of the zone loop records whether any zone so far
contains the player. -/
lemma zoneFold_fst (pos : Vec3) (zones : List Zone) (b : Bool) (q : ℚ) :
    (zones.foldl (zoneStep pos) (b, q)).1 = (b || zones.any (playerInZone pos)) := by
  induction zones generalizing b q with
  | nil => simp
  | cons z zs ih =>
    by_cases h : playerInZone pos z
    · simp [zoneStep, h, ih]
    · simp [zoneStep, h, ih]

/-- A left fold of `max` is bounded below by its seed and by every element. -/
lemma foldl_max_le (l : List ℚ) (q : ℚ) :
    q ≤ l.foldl max q ∧ ∀ x ∈ l, x ≤ l.foldl max q := by
  induction l generalizing q with
  | nil => simp
  | cons a as ih =>
    refine ⟨le_trans (le_max_left _ _) (ih (max q a)).1, ?_⟩
    intro x hx
    rcases List.mem_cons.mp hx with rfl | hx
    · exact le_trans (le_max_right _ _) (ih (max q x)).1
    · exact (ih (max q a)).2 x hx

/-- A left fold of `max` yields either its seed or a list element. -/
lemma foldl_max_mem (l : List ℚ) (q : ℚ) :
    l.foldl max q = q ∨ l.foldl max q ∈ l := by
  induction l generalizing q with
  | nil => simp
  | cons a as ih =>
    rcases ih (max q a) with h | h
    · rcases max_cases q a with ⟨hm, _⟩ | ⟨hm, _⟩
      · exact Or.inl (by rw [List.foldl_cons, h, hm])
      · exact Or.inr (by rw [List.foldl_cons, h, hm]; exact List.mem_cons_self _ _)
    · exact Or.inr (List.mem_cons_of_mem _ h)

/-- C1: for every participant, the recomputed stealth score equals base 85 if in
a static hide spot else 5, plus the active dynamic-zone bonus if in a dynamic
zone, plus 15 if crouching, minus 5 if speed is in (0.1, 2.5], minus 15 if
speed > 2.5, clamped to [0, 100]; and the stored score is always in [0, 100]. -/
theorem stealth_score_formula_and_bounds (hs dz : Bool) (bonus : ℚ) (cr : Bool)
    (speed : ℚ) :
    updateStealth hs dz bonus cr speed =
      max 0 (min 100
        ((if hs then (85 : ℚ) else 5) + (if dz then bonus else 0) +
          (if cr then (15 : ℚ) else 0) -
          (if 0.1 < speed ∧ speed ≤ 2.5 then (5 : ℚ)
            else if 2.5 < speed then 15 else 0))) ∧
    0 ≤ updateStealth hs dz bonus cr speed ∧
      updateStealth hs dz bonus cr speed ≤ 100 := by
  refine ⟨?_, le_max_left _ _, max_le (by norm_num) (min_le_left _ _)⟩
  simp only [updateStealth]
  split_ifs <;> ring_nf

/-- C6: with the program's (nonnegative) zone bonuses, the dynamic-zone
contribution fed into the stealth base is the maximum single-zone bonus among
the occupied zones — it is attained by an occupied zone and bounds every
occupied zone's bonus — never the sum. -/
theorem dynamic_zone_bonus_is_max (pos : Vec3) (zones : List Zone)
    (hpos : ∀ z ∈ zones, 0 ≤ z.stealthBonus)
    (hocc : ∃ z ∈ zones, playerInZone pos z = true) :
    (checkDynamicHideZones pos zones).1 = true ∧
    (∃ z ∈ zones, playerInZone pos z = true ∧
      (checkDynamicHideZones pos zones).2 = z.stealthBonus) ∧
    (∀ z ∈ zones, playerInZone pos z = true →
      z.stealthBonus ≤ (checkDynamicHideZones pos zones).2) := by
  obtain ⟨z0, hz0, hz0in⟩ := hocc
  have hany : zones.any (playerInZone pos) = true :=
    List.any_eq_true.mpr ⟨z0, hz0, hz0in⟩
  have hfst : (checkDynamicHideZones pos zones).1 = true := by
    simp [checkDynamicHideZones, zoneFold_fst, hany]
  have hsnd : (checkDynamicHideZones pos zones).2 =
      ((zones.filter (playerInZone pos)).map Zone.stealthBonus).foldl max 0 := by
    simp only [checkDynamicHideZones, hfst]
    simp only [checkDynamicHideZones, zoneFold_fst, hany, Bool.false_or, if_pos,
      zoneFold_snd, List.foldl_map]
  set l := (zones.filter (playerInZone pos)).map Zone.stealthBonus with hl
  refine ⟨hfst, ?_, ?_⟩
  · rcases foldl_max_mem l 0 with h | h
    · -- the fold equals the seed 0: then 0 is itself an occupied bonus,
      -- because the occupied zone z0 has 0 ≤ bonus ≤ fold = 0
      have hmem : z0.stealthBonus ∈ l := by
        simp only [hl, List.mem_map]
        exact ⟨z0, List.mem_filter.mpr ⟨hz0, hz0in⟩, rfl⟩
      have hle := (foldl_max_le l 0).2 _ hmem
      rw [h] at hle
      have h0 : z0.stealthBonus = 0 := le_antisymm hle (hpos z0 hz0)
      exact ⟨z0, hz0, hz0in, by rw [hsnd, h, ← h0]⟩
    · rw [hl] at h
      obtain ⟨z, hzf, hzb⟩ := List.mem_map.mp h
      have hzmem := List.mem_filter.mp hzf
      exact ⟨z, hzmem.1, hzmem.2, by rw [hsnd, ← hzb]⟩
  · intro z hz hzin
    have hmem : z.stealthBonus ∈ l := by
      simp only [hl, List.mem_map]
      exact ⟨z, List.mem_filter.mpr ⟨hz, hzin⟩, rfl⟩
    rw [hsnd]
    exact (foldl_max_le l 0).2 _ hmem

/-- Witness for C6: two overlapping spherical zones with bonuses 15 and 25, the
participant at their common center; the contribution is 25, never the sum 40. -/
theorem dynamic_zone_bonus_is_max_witness :
    ((checkDynamicHideZones ⟨0, 0, 0⟩
        [⟨.sphere ⟨0, 0, 0⟩ 2, 15⟩, ⟨.sphere ⟨0, 0, 0⟩ 2, 25⟩]).1 = true ∧
      (∃ z ∈ [Zone.mk (.sphere ⟨0, 0, 0⟩ 2) 15, Zone.mk (.sphere ⟨0, 0, 0⟩ 2) 25],
        playerInZone ⟨0, 0, 0⟩ z = true ∧
        (checkDynamicHideZones ⟨0, 0, 0⟩
          [⟨.sphere ⟨0, 0, 0⟩ 2, 15⟩, ⟨.sphere ⟨0, 0, 0⟩ 2, 25⟩]).2 = z.stealthBonus) ∧
      (∀ z ∈ [Zone.mk (.sphere ⟨0, 0, 0⟩ 2) 15, Zone.mk (.sphere ⟨0, 0, 0⟩ 2) 25],
        playerInZone ⟨0, 0, 0⟩ z = true →
        z.stealthBonus ≤ (checkDynamicHideZones ⟨0, 0, 0⟩
          [⟨.sphere ⟨0, 0, 0⟩ 2, 15⟩, ⟨.sphere ⟨0, 0, 0⟩ 2, 25⟩]).2)) ∧
    (checkDynamicHideZones ⟨0, 0, 0⟩
      [⟨.sphere ⟨0, 0, 0⟩ 2, 15⟩, ⟨.sphere ⟨0, 0, 0⟩ 2, 25⟩]).2 = 25 ∧
    (25 : ℚ) ≠ 15 + 25 := by
  refine ⟨dynamic_zone_bonus_is_max _ _ ?_ ?_,
    by norm_num [checkDynamicHideZones, zoneStep, playerInZone, distSq], by norm_num⟩
  · intro z hz
    fin_cases hz <;> norm_num
  · exact ⟨⟨.sphere ⟨0, 0, 0⟩ 2, 15⟩, by simp,
      by norm_num [playerInZone, distSq]⟩

/-- `jsOr` at default 0 is the identity (`x || 0` of a number is `x`). -/
lemma jsOr_zero (x : ℚ) : jsOr x 0 = x := by
  unfold jsOr; split_ifs with h <;> simp [h]

/-- Override evaluation: for a living participant satisfying the point-blank
condition, the visibility outcome is decided by the cone test and the
line-of-sight ray alone, for every random sample. -/
lemma visOutcome_override (p : PlayerObs) (halive : p.isAlive = true)
    (hov : 90 ≤ jsOr p.stealthLevel 0 ∧ p.dist ≤ 3) (r : ℚ) :
    visOutcome p r =
      if ¬ p.inView then .rejectedAngle
      else if occluded p then .rejectedOccluded
      else .visible := by
  simp only [visOutcome, halive, not_true_eq_false, ite_false, if_pos hov]

/-- Membership in the visible set forces a `visible` outcome at some sample. -/
lemma mem_getVisiblePlayers {p : PlayerObs} {players : List PlayerObs}
    {rnd : ℕ → ℚ} (h : p ∈ getVisiblePlayers players rnd) :
    ∃ i, visOutcome p (rnd i) = .visible := by
  unfold getVisiblePlayers at h
  obtain ⟨⟨i, q⟩, hmem, hq⟩ := List.mem_map.mp h
  have hf := List.mem_filter.mp hmem
  refine ⟨i, ?_⟩
  have hv : visOutcome q (rnd i) = .visible := by simpa using hf.2
  rw [show q = p from hq] at hv
  exact hv

/-- C5 (amended): a living participant with stealth score ≥ 90 at distance ≤ 3
skips the view-distance rejection and the random probability gate — the outcome
is independent of the sample and is never a distance or probability rejection —
and proceeds to the line-of-sight ray check exactly when it passes the
view-cone test; outside the cone it is rejected by the cone test before the
ray check. -/
theorem point_blank_override_skips_gates (p : PlayerObs) (halive : p.isAlive = true)
    (hst : 90 ≤ p.stealthLevel) (hd : p.dist ≤ 3) (r : ℚ) :
    visOutcome p r = visOutcome p 0 ∧
    visOutcome p r ≠ .rejectedDistance ∧
    visOutcome p r ≠ .rejectedChance ∧
    (p.inView = true →
      visOutcome p r = .rejectedOccluded ∨ visOutcome p r = .visible) ∧
    (p.inView = false → visOutcome p r = .rejectedAngle) := by
  have hov : 90 ≤ jsOr p.stealthLevel 0 ∧ p.dist ≤ 3 := by
    rw [jsOr_zero]; exact ⟨hst, hd⟩
  have e := visOutcome_override p halive hov
  rw [e r, e 0]
  by_cases hv : p.inView = true
  · by_cases ho : occluded p = true
    · simp [hv, ho]
    · simp [hv, ho]
  · simp at hv
    simp [hv]

/-- Witness for C5 (amended): an in-cone, unoccluded override participant is
visible for an arbitrary sample; the gates were skipped. -/
theorem point_blank_override_skips_gates_witness :
    visOutcome
        { id := 1, isAlive := true, pos := ⟨0, 0, 0⟩, dist := 2, stealthLevel := 95,
          maxStealth := 100, isCrouching := true, isRunning := false, speed := 0,
          inView := true, eyeDist := 2, losHit := none } (1 / 2) ≠ .rejectedChance ∧
    (visOutcome
        { id := 1, isAlive := true, pos := ⟨0, 0, 0⟩, dist := 2, stealthLevel := 95,
          maxStealth := 100, isCrouching := true, isRunning := false, speed := 0,
          inView := true, eyeDist := 2, losHit := none } (1 / 2) = .rejectedOccluded ∨
      visOutcome
        { id := 1, isAlive := true, pos := ⟨0, 0, 0⟩, dist := 2, stealthLevel := 95,
          maxStealth := 100, isCrouching := true, isRunning := false, speed := 0,
          inView := true, eyeDist := 2, losHit := none } (1 / 2) = .visible) := by
  have h := point_blank_override_skips_gates
    { id := 1, isAlive := true, pos := ⟨0, 0, 0⟩, dist := 2, stealthLevel := 95,
      maxStealth := 100, isCrouching := true, isRunning := false, speed := 0,
      inView := true, eyeDist := 2, losHit := none }
    rfl (by norm_num) (by norm_num) (1 / 2)
  exact ⟨h.2.2.1, h.2.2.2.1 rfl⟩

/-- Counterexample to C5 as stated: a living participant with stealth 95 at
distance 2 but outside the view cone is rejected by the cone test and never
reaches the line-of-sight ray check. -/
theorem point_blank_override_counterexample :
    ({ id := 1, isAlive := true, pos := ⟨0, 0, 0⟩, dist := 2, stealthLevel := 95,
        maxStealth := 100, isCrouching := true, isRunning := false, speed := 0,
        inView := false, eyeDist := 2, losHit := none } : PlayerObs).isAlive = true ∧
    (90 : ℚ) ≤ 95 ∧ (2 : ℚ) ≤ 3 ∧
    visOutcome
      { id := 1, isAlive := true, pos := ⟨0, 0, 0⟩, dist := 2, stealthLevel := 95,
        maxStealth := 100, isCrouching := true, isRunning := false, speed := 0,
        inView := false, eyeDist := 2, losHit := none } (1 / 2) = .rejectedAngle ∧
    VisOutcome.rejectedAngle ≠ .rejectedOccluded ∧
    VisOutcome.rejectedAngle ≠ .visible := by
  refine ⟨rfl, by norm_num, by norm_num, ?_, by simp, by simp⟩
  rw [visOutcome_override _ rfl (by rw [jsOr_zero]; norm_num)]
  simp

/-- C8: for every living participant, the audibility judgement is: noise 1.0 if
running, 0.5 if moving above the 0.1 epsilon, else 0; halved if crouching; then
scaled by `1 − 0.5·stealthScore/maxStealth`; the participant is audible iff the
noise is positive and distance < hearingDistance · noise (zero noise is never
audible). -/
theorem audibility_judgement (p : PlayerObs) (halive : p.isAlive = true) :
    noiseLevel p =
      (if p.isRunning then (1 : ℚ) else if 0.1 < p.speed then 0.5 else 0) *
        (if p.isCrouching then (0.5 : ℚ) else 1) *
        (1 - 0.5 * p.stealthLevel / p.maxStealth) ∧
    (audibleCheck p = true ↔ 0 < noiseLevel p ∧ p.dist < 8 * noiseLevel p) ∧
    (noiseLevel p = 0 → audibleCheck p = false) := by
  refine ⟨?_, ?_, ?_⟩
  · simp only [noiseLevel]
    split_ifs <;> ring
  · simp [audibleCheck, halive]
  · intro h
    simp [audibleCheck, halive, h]

/-- Witness for C8: a running, non-crouching participant with zero stealth at
distance 2 has noise 1 and is audible. -/
theorem audibility_judgement_witness :
    audibleCheck
      { id := 1, isAlive := true, pos := ⟨0, 0, 0⟩, dist := 2, stealthLevel := 0,
        maxStealth := 100, isCrouching := false, isRunning := true, speed := 0,
        inView := true, eyeDist := 2, losHit := none } = true := by
  have h := audibility_judgement
    { id := 1, isAlive := true, pos := ⟨0, 0, 0⟩, dist := 2, stealthLevel := 0,
      maxStealth := 100, isCrouching := false, isRunning := true, speed := 0,
      inView := true, eyeDist := 2, losHit := none } rfl
  exact h.2.1.mpr (by norm_num [noiseLevel])

/-- C10: a living participant whose stealth score equals the (positive) maximum
stealth, at distance > 3, has detection chance 0 and is rejected by the
distance or probability gate for every nonnegative random sample, hence is
never in the visible set. -/
theorem max_stealth_far_never_visible (p : PlayerObs) (halive : p.isAlive = true)
    (hmax : p.stealthLevel = p.maxStealth) (hposm : 0 < p.maxStealth)
    (hdist : 3 < p.dist) :
    detectionChance p = 0 ∧
    (∀ r : ℚ, 0 ≤ r →
      (visOutcome p r = .rejectedDistance ∨ visOutcome p r = .rejectedChance) ∧
        visOutcome p r ≠ .visible) ∧
    (∀ (players : List PlayerObs) (rnd : ℕ → ℚ),
      (∀ i, 0 ≤ rnd i) → p ∉ getVisiblePlayers players rnd) := by
  have hm : jsOr p.maxStealth 100 = p.maxStealth := by
    unfold jsOr; rw [if_neg hposm.ne']
  have hchance : detectionChance p = 0 := by
    simp only [detectionChance, jsOr_zero, hm, hmax, mul_one]
    rw [div_self hposm.ne']
    ring
  have hvis : ∀ r : ℚ, 0 ≤ r →
      visOutcome p r = .rejectedDistance ∨ visOutcome p r = .rejectedChance := by
    intro r hr
    simp only [visOutcome, halive, not_true_eq_false, ite_false]
    rw [if_neg (by rintro ⟨-, h3⟩; linarith)]
    by_cases h15 : 15 < p.dist
    · rw [if_pos h15]; exact Or.inl rfl
    · rw [if_neg h15, if_pos (by rw [hchance]; exact hr)]; exact Or.inr rfl
  refine ⟨hchance, fun r hr => ⟨hvis r hr, ?_⟩, ?_⟩
  · rcases hvis r hr with h | h <;> simp [h]
  · intro players rnd hrnd hmem
    obtain ⟨i, hi⟩ := mem_getVisiblePlayers hmem
    rcases hvis (rnd i) (hrnd i) with h | h <;> simp [h] at hi

/-- Witness for C10: a max-stealth participant at distance 10 has detection
chance 0 and is invisible at sample 1/2. -/
theorem max_stealth_far_never_visible_witness :
    detectionChance
      { id := 2, isAlive := true, pos := ⟨0, 0, 0⟩, dist := 10, stealthLevel := 100,
        maxStealth := 100, isCrouching := false, isRunning := false, speed := 0,
        inView := true, eyeDist := 10, losHit := none } = 0 ∧
    visOutcome
      { id := 2, isAlive := true, pos := ⟨0, 0, 0⟩, dist := 10, stealthLevel := 100,
        maxStealth := 100, isCrouching := false, isRunning := false, speed := 0,
        inView := true, eyeDist := 10, losHit := none } (1 / 2) ≠ .visible := by
  have h := max_stealth_far_never_visible
    { id := 2, isAlive := true, pos := ⟨0, 0, 0⟩, dist := 10, stealthLevel := 100,
      maxStealth := 100, isCrouching := false, isRunning := false, speed := 0,
      inView := true, eyeDist := 10, losHit := none }
    rfl rfl (by norm_num) (by norm_num)
  exact ⟨h.1, (h.2.1 (1 / 2) (by norm_num)).2⟩

/-- The `getClosestPlayer` fold, once seeded with a current best `c`, computes
`closestFrom c`. -/
lemma getClosest_fold_eq (as : List PlayerObs) :
    ∀ c : PlayerObs,
      (as.foldl
        (fun (acc : Option PlayerObs × Option ℚ) p =>
          match acc.2 with
          | none => (some p, some p.dist)
          | some d => if p.dist < d then (some p, some p.dist) else acc)
        (some c, some c.dist)).1 = some (closestFrom c as) := by
  induction as with
  | nil => intro c; rfl
  | cons p ps ih =>
    intro c
    simp only [List.foldl_cons, closestFrom]
    by_cases h : p.dist < c.dist
    · simpa [h] using ih p
    · simpa [h] using ih c

/-- `getClosestPlayer` on a nonempty list is `closestFrom` seeded with the head. -/
lemma getClosestPlayer_cons (a : PlayerObs) (as : List PlayerObs) :
    getClosestPlayer (a :: as) = some (closestFrom a as) := by
  unfold getClosestPlayer
  simp only [List.foldl_cons]
  exact getClosest_fold_eq as a

/-- `closestFrom c l` is a minimum of `c :: l`, and when it improves on `c` it
is the first strict improvement in iteration order. -/
lemma closestFrom_spec (l : List PlayerObs) : ∀ c : PlayerObs,
    (closestFrom c l).dist ≤ c.dist ∧
    (∀ q ∈ l, (closestFrom c l).dist ≤ q.dist) ∧
    (closestFrom c l = c ∨
      ∃ l1 l2, l = l1 ++ (closestFrom c l) :: l2 ∧
        (closestFrom c l).dist < c.dist ∧
        ∀ q ∈ l1, (closestFrom c l).dist < q.dist) := by
  induction l with
  | nil => intro c; exact ⟨le_refl _, by simp, Or.inl rfl⟩
  | cons p ps ih =>
    intro c
    by_cases h : p.dist < c.dist
    · obtain ⟨h1, h2, h3⟩ := ih p
      simp only [closestFrom, if_pos h]
      set r := closestFrom p ps with hr
      refine ⟨le_trans h1 h.le, ?_, ?_⟩
      · intro q hq
        rcases List.mem_cons.mp hq with rfl | hq
        · exact h1
        · exact h2 q hq
      · rcases h3 with he | ⟨l1, l2, hsplit, hlt, hprev⟩
        · exact Or.inr ⟨[], ps, by simp [he], by rw [he]; exact h, by simp⟩
        · refine Or.inr ⟨p :: l1, l2, by rw [hsplit, List.cons_append], lt_trans hlt h, ?_⟩
          intro q hq
          rcases List.mem_cons.mp hq with rfl | hq
          · exact hlt
          · exact hprev q hq
    · obtain ⟨h1, h2, h3⟩ := ih c
      simp only [closestFrom, if_neg h]
      set r := closestFrom c ps with hr
      push_neg at h
      refine ⟨h1, ?_, ?_⟩
      · intro q hq
        rcases List.mem_cons.mp hq with rfl | hq
        · exact le_trans h1 h
        · exact h2 q hq
      · rcases h3 with he | ⟨l1, l2, hsplit, hlt, hprev⟩
        · exact Or.inl he
        · refine Or.inr ⟨p :: l1, l2, by rw [hsplit, List.cons_append], hlt, ?_⟩
          intro q hq
          rcases List.mem_cons.mp hq with rfl | hq
          · exact lt_of_lt_of_le hlt h
          · exact hprev q hq

/-- On a nonempty list, `getClosestPlayer` returns the first participant
attaining the minimal distance. -/
lemma getClosestPlayer_firstMin (l : List PlayerObs) (hne : l ≠ []) :
    ∃ p, getClosestPlayer l = some p ∧ firstMin p l := by
  cases l with
  | nil => exact absurd rfl hne
  | cons a as =>
    obtain ⟨h1, h2, h3⟩ := closestFrom_spec as a
    refine ⟨closestFrom a as, getClosestPlayer_cons a as, ?_, ?_⟩
    · set r := closestFrom a as with hr
      intro q hq
      rcases List.mem_cons.mp hq with rfl | hq
      · exact h1
      · exact h2 q hq
    · set r := closestFrom a as with hr
      rcases h3 with he | ⟨l1, l2, hsplit, hlt, hprev⟩
      · exact ⟨[], as, by simp [he], by simp⟩
      · refine ⟨a :: l1, l2, by rw [hsplit, List.cons_append], ?_⟩
        intro q hq
        rcases List.mem_cons.mp hq with rfl | hq
        · exact hlt
        · exact hprev q hq

/-- C2 (amended): per decision evaluation — visible set non-empty gives Chasing
on the first-closest visible participant; else audible set non-empty gives
Searching on the first-closest audible participant; else a Searching state with
a last known position stays Searching until its duration elapses, then becomes
Patrolling; in every other remaining case the state becomes Patrolling (it is
not left unchanged). -/
theorem decision_transition (s : DecisionState) (vis aud : List PlayerObs) :
    (vis ≠ [] → ∃ p, firstMin p vis ∧
      makeDecision s vis aud = ⟨.chasing, some p, some p.pos, s.searchTime⟩) ∧
    (vis = [] → aud ≠ [] → ∃ p, firstMin p aud ∧
      makeDecision s vis aud = ⟨.searching, some p, some p.pos, 0⟩) ∧
    (vis = [] → aud = [] → s.state = .searching → s.lastKnownPosition.isSome = true →
      (10 < s.searchTime + 1 →
        makeDecision s vis aud = ⟨.patrolling, none, none, s.searchTime + 1⟩) ∧
      (¬ 10 < s.searchTime + 1 →
        makeDecision s vis aud =
          ⟨.searching, none, s.lastKnownPosition, s.searchTime + 1⟩)) ∧
    (vis = [] → aud = [] → ¬ (s.state = .searching ∧ s.lastKnownPosition.isSome = true) →
      makeDecision s vis aud = ⟨.patrolling, none, s.lastKnownPosition, s.searchTime⟩) := by
  refine ⟨?_, ?_, ?_, ?_⟩
  · intro hv
    obtain ⟨p, hp, hmin⟩ := getClosestPlayer_firstMin vis hv
    refine ⟨p, hmin, ?_⟩
    cases s
    simp [makeDecision, hv, hp]
  · intro hv ha
    obtain ⟨p, hp, hmin⟩ := getClosestPlayer_firstMin aud ha
    refine ⟨p, hmin, ?_⟩
    cases s
    simp [makeDecision, hv, ha, hp]
  · intro hv ha hst hlk
    cases s
    constructor <;> intro hdur <;>
      simp_all [makeDecision]
  · intro hv ha hrem
    cases s
    rw [not_and_or] at hrem
    rcases hrem with h | h <;> simp_all [makeDecision]

/-- Counterexample to C2 as stated: with empty visible and audible sets and a
Chasing state (one of the "remaining" cases), the state is not unchanged — it
becomes Patrolling. -/
theorem decision_transition_counterexample :
    (makeDecision ⟨.chasing, none, some ⟨0, 0, 0⟩, 0⟩ [] []).state = .patrolling ∧
    AIState.patrolling ≠ AIState.chasing := by
  constructor
  · rfl
  · simp

/-- Witness for C2 (amended): a single visible participant yields Chasing on
that participant. -/
theorem decision_transition_witness :
    (makeDecision ⟨.idle, none, none, 0⟩
      [{ id := 1, isAlive := true, pos := ⟨1, 0, 0⟩, dist := 5, stealthLevel := 0,
         maxStealth := 100, isCrouching := false, isRunning := false, speed := 0,
         inView := true, eyeDist := 5, losHit := none }] []).state = .chasing := by
  obtain ⟨p, _, heq⟩ := (decision_transition ⟨.idle, none, none, 0⟩
    [{ id := 1, isAlive := true, pos := ⟨1, 0, 0⟩, dist := 5, stealthLevel := 0,
       maxStealth := 100, isCrouching := false, isRunning := false, speed := 0,
       inView := true, eyeDist := 5, losHit := none }] []).1 (by simp)
  rw [heq]

/-- `infGt` is irreflexive. -/
lemma infGt_irrefl (a : Option ℚ) : infGt a a = false := by
  cases a <;> simp [infGt]

/-- `infGt` is asymmetric. -/
lemma infGt_asymm {a b : Option ℚ} (h : infGt a b = true) : infGt b a = false := by
  cases a <;> cases b <;> simp_all [infGt] <;> linarith

/-- `infGt` is transitive. -/
lemma infGt_trans {a b c : Option ℚ} (h1 : infGt a b = true) (h2 : infGt b c = true) :
    infGt a c = true := by
  cases a <;> cases b <;> cases c <;> simp_all [infGt] <;> linarith

/-- From `a > b` and `¬ (c > b)` conclude `a > c`. -/
lemma infGt_le_trans {a b c : Option ℚ} (h1 : infGt a b = true) (h2 : infGt c b = false) :
    infGt a c = true := by
  cases a <;> cases b <;> cases c <;> simp_all [infGt] <;> linarith

/-- A disjunct absorbed by an implication. -/
lemma or_eq_of_imp {a b : Bool} (h : a = true → b = true) : (a || b) = b := by
  cases a
  · simp
  · simp [h rfl]

/-- C4 (amended): the chosen feeler's ray distance equals the best distance and
is never less than any of the three candidates'; every feeler listed before
the chosen one is strictly worse (so ties favor the earliest feeler in
iteration order, the −30° one first — not the center); `foundClearPath` holds
iff the best exceeds the 2.5 threshold, and the speed factor is 0.2 below the
near threshold 1.0, 0.5 below 2.5, else 1. -/
theorem steering_feeler_selection (rayDist : Feeler → Option ℚ)
    (hpos : ∀ f d, rayDist f = some d → 0 ≤ d) :
    (feelerScan rayDist).2.1 = rayDist (feelerScan rayDist).1 ∧
    (∀ f, infGt (rayDist f) (feelerScan rayDist).2.1 = false) ∧
    (∀ f, feelerIdx f < feelerIdx (feelerScan rayDist).1 →
      infGt (feelerScan rayDist).2.1 (rayDist f) = true) ∧
    (feelerScan rayDist).2.2 = infGt (feelerScan rayDist).2.1 (some 2.5) ∧
    speedFactor (feelerScan rayDist).2.1 (feelerScan rayDist).2.2 =
      (if infGt (some 1) (feelerScan rayDist).2.1 then 0.2
        else if infGt (some 2.5) (feelerScan rayDist).2.1 then 0.5
        else 1) := by
  have h1 : infGt (rayDist .left) (some (-1)) = true := by
    cases hL : rayDist .left with
    | none => simp [infGt]
    | some d =>
      have hd := hpos .left d hL
      simp only [infGt, decide_eq_true_eq]
      linarith
  have hfold : feelerScan rayDist =
      if infGt (rayDist .right)
          (if infGt (rayDist .center) (rayDist .left) then rayDist .center
            else rayDist .left) = true then
        (.right, rayDist .right,
          ((infGt (rayDist .left) (some 2.5) ||
              (if infGt (rayDist .center) (rayDist .left) then
                infGt (rayDist .center) (some 2.5) else false)) ||
            infGt (rayDist .right) (some 2.5)))
      else
        if infGt (rayDist .center) (rayDist .left) = true then
          (.center, rayDist .center,
            infGt (rayDist .left) (some 2.5) || infGt (rayDist .center) (some 2.5))
        else (.left, rayDist .left, infGt (rayDist .left) (some 2.5)) := by
    simp only [feelerScan, feelerOrder, List.foldl_cons, List.foldl_nil, h1, if_true,
      Bool.false_or]
    by_cases h2 : infGt (rayDist .center) (rayDist .left) = true
    · simp [h2]
    · simp [h2]
  by_cases h2 : infGt (rayDist .center) (rayDist .left) = true
  · by_cases h3 : infGt (rayDist .right) (rayDist .center) = true
    · have hres : feelerScan rayDist =
          (.right, rayDist .right,
            ((infGt (rayDist .left) (some 2.5) || infGt (rayDist .center) (some 2.5)) ||
              infGt (rayDist .right) (some 2.5))) := by
        rw [hfold]
        simp [h2, h3]
      rw [hres]
      refine ⟨rfl, ?_, ?_, ?_, ?_⟩
      · intro f
        cases f
        · exact infGt_asymm (infGt_trans h3 h2)
        · exact infGt_asymm h3
        · exact infGt_irrefl _
      · intro f hf
        cases f
        · exact infGt_trans h3 h2
        · exact h3
        · simp [feelerIdx] at hf
      · have himp : (infGt (rayDist .left) (some 2.5) ||
            infGt (rayDist .center) (some 2.5)) = true →
            infGt (rayDist .right) (some 2.5) = true := by
          intro h
          have h' : infGt (rayDist .left) (some 2.5) = true ∨
              infGt (rayDist .center) (some 2.5) = true := by simpa using h
          rcases h' with h' | h'
          · exact infGt_trans h3 (infGt_trans h2 h')
          · exact infGt_trans h3 h'
        rw [or_eq_of_imp himp]
      · have himp : (infGt (rayDist .left) (some 2.5) ||
            infGt (rayDist .center) (some 2.5)) = true →
            infGt (rayDist .right) (some 2.5) = true := by
          intro h
          have h' : infGt (rayDist .left) (some 2.5) = true ∨
              infGt (rayDist .center) (some 2.5) = true := by simpa using h
          rcases h' with h' | h'
          · exact infGt_trans h3 (infGt_trans h2 h')
          · exact infGt_trans h3 h'
        rw [or_eq_of_imp himp]
        cases hb : infGt (rayDist .right) (some 2.5) with
        | false => simp [speedFactor]
        | true =>
          have hb1 : infGt (some 1) (rayDist .right) = false := by
            refine infGt_asymm (infGt_trans hb ?_)
            simp only [infGt, decide_eq_true_eq]
            norm_num
          have hb2 : infGt (some 2.5) (rayDist .right) = false := infGt_asymm hb
          simp [speedFactor, hb1, hb2]
    · have hres : feelerScan rayDist =
          (.center, rayDist .center,
            infGt (rayDist .left) (some 2.5) || infGt (rayDist .center) (some 2.5)) := by
        rw [hfold]
        simp [h2, h3]
      rw [hres]
      refine ⟨rfl, ?_, ?_, ?_, ?_⟩
      · intro f
        cases f
        · exact infGt_asymm h2
        · exact infGt_irrefl _
        · simpa using h3
      · intro f hf
        cases f
        · exact h2
        · simp [feelerIdx] at hf
        · simp [feelerIdx] at hf
      · exact or_eq_of_imp fun h => infGt_trans h2 h
      · rw [or_eq_of_imp fun h => infGt_trans h2 h]
        cases hb : infGt (rayDist .center) (some 2.5) with
        | false => simp [speedFactor]
        | true =>
          have hb1 : infGt (some 1) (rayDist .center) = false := by
            refine infGt_asymm (infGt_trans hb ?_)
            simp only [infGt, decide_eq_true_eq]
            norm_num
          have hb2 : infGt (some 2.5) (rayDist .center) = false := infGt_asymm hb
          simp [speedFactor, hb1, hb2]
  · by_cases h3 : infGt (rayDist .right) (rayDist .left) = true
    · have hres : feelerScan rayDist =
          (.right, rayDist .right,
            infGt (rayDist .left) (some 2.5) || infGt (rayDist .right) (some 2.5)) := by
        rw [hfold]
        simp [h2, h3]
      rw [hres]
      have hrc : infGt (rayDist .right) (rayDist .center) = true :=
        infGt_le_trans h3 (by simpa using h2)
      refine ⟨rfl, ?_, ?_, ?_, ?_⟩
      · intro f
        cases f
        · exact infGt_asymm h3
        · exact infGt_asymm hrc
        · exact infGt_irrefl _
      · intro f hf
        cases f
        · exact h3
        · exact hrc
        · simp [feelerIdx] at hf
      · exact or_eq_of_imp fun h => infGt_trans h3 h
      · rw [or_eq_of_imp fun h => infGt_trans h3 h]
        cases hb : infGt (rayDist .right) (some 2.5) with
        | false => simp [speedFactor]
        | true =>
          have hb1 : infGt (some 1) (rayDist .right) = false := by
            refine infGt_asymm (infGt_trans hb ?_)
            simp only [infGt, decide_eq_true_eq]
            norm_num
          have hb2 : infGt (some 2.5) (rayDist .right) = false := infGt_asymm hb
          simp [speedFactor, hb1, hb2]
    · have hres : feelerScan rayDist =
          (.left, rayDist .left, infGt (rayDist .left) (some 2.5)) := by
        rw [hfold]
        simp [h2, h3]
      rw [hres]
      refine ⟨rfl, ?_, ?_, ?_, ?_⟩
      · intro f
        cases f
        · exact infGt_irrefl _
        · simpa using h2
        · simpa using h3
      · intro f hf
        cases f <;> simp [feelerIdx] at hf
      · rfl
      · cases hb : infGt (rayDist .left) (some 2.5) with
        | false => simp [speedFactor]
        | true =>
          have hb1 : infGt (some 1) (rayDist .left) = false := by
            refine infGt_asymm (infGt_trans hb ?_)
            simp only [infGt, decide_eq_true_eq]
            norm_num
          have hb2 : infGt (some 2.5) (rayDist .left) = false := infGt_asymm hb
          simp [speedFactor, hb1, hb2]

/-- Counterexample to C4 as stated: with all three feeler rays tied (each at
distance 5), the chosen direction is the −30° (left) feeler, not the center —
ties favor the first feeler in iteration order. -/
theorem steering_tie_break_counterexample :
    (feelerScan fun _ => some (5 : ℚ)).1 = Feeler.left ∧
    Feeler.left ≠ Feeler.center := by
  constructor
  · simp only [feelerScan, feelerOrder, List.foldl_cons, List.foldl_nil, infGt]
    norm_num
  · simp

/-- Witness for C4 (amended): left ray hits at 2, center ray misses (infinite
clearance), right ray hits at 1; the best is the center ray's, no candidate
beats it, and full speed is used. -/
theorem steering_feeler_selection_witness :
    (feelerScan fun f => match f with
      | .left => some (2 : ℚ) | .center => none | .right => some 1).2.1 =
      (fun f : Feeler => match f with
        | .left => some (2 : ℚ) | .center => none | .right => some 1)
        (feelerScan fun f => match f with
          | .left => some (2 : ℚ) | .center => none | .right => some 1).1 ∧
    infGt ((fun f : Feeler => match f with
        | .left => some (2 : ℚ) | .center => none | .right => some 1) .left)
      (feelerScan fun f => match f with
        | .left => some (2 : ℚ) | .center => none | .right => some 1).2.1 = false := by
  have h := steering_feeler_selection
    (fun f => match f with | .left => some (2 : ℚ) | .center => none | .right => some 1)
    (by
      intro f d hf
      cases f <;> simp_all <;> linarith)
  exact ⟨h.1, h.2.1 .left⟩

/-- Paired induction for the stuck counter: a firing from counter 0 needs the
current and the previous sample low; a firing from counter 1 needs the current
sample low, and also the previous one unless it is the first. -/
lemma stuckTriggers_spec (samples : List Bool) :
    ∀ i : ℕ,
      ((stuckTriggers 0 samples).get? i = some true →
        1 ≤ i ∧ samples.get? i = some true ∧ samples.get? (i - 1) = some true) ∧
      ((stuckTriggers 1 samples).get? i = some true →
        samples.get? i = some true ∧ (1 ≤ i → samples.get? (i - 1) = some true)) := by
  induction samples with
  | nil =>
    intro i
    constructor <;> intro h <;> simp [stuckTriggers] at h
  | cons low rest ih =>
    intro i
    constructor
    · intro h
      cases low
      · cases i with
        | zero => simp [stuckTriggers, stuckStep] at h
        | succ j =>
          obtain ⟨hj1, hj2, hj3⟩ := (ih j).1 (by simpa [stuckTriggers, stuckStep] using h)
          refine ⟨by omega, by simpa using hj2, ?_⟩
          cases j with
          | zero => omega
          | succ k => simpa using hj3
      · cases i with
        | zero => simp [stuckTriggers, stuckStep] at h
        | succ j =>
          obtain ⟨hj1, hj2⟩ := (ih j).2 (by simpa [stuckTriggers, stuckStep] using h)
          refine ⟨by omega, by simpa using hj1, ?_⟩
          cases j with
          | zero => simp
          | succ k => simpa using hj2 (by omega)
    · intro h
      cases low
      · cases i with
        | zero => simp [stuckTriggers, stuckStep] at h
        | succ j =>
          obtain ⟨hj1, hj2, hj3⟩ := (ih j).1 (by simpa [stuckTriggers, stuckStep] using h)
          refine ⟨by simpa using hj2, fun _ => ?_⟩
          cases j with
          | zero => omega
          | succ k => simpa using hj3
      · cases i with
        | zero => simp
        | succ j =>
          obtain ⟨hj1, hj2, hj3⟩ := (ih j).1 (by simpa [stuckTriggers, stuckStep] using h)
          refine ⟨by simpa using hj2, fun _ => ?_⟩
          cases j with
          | zero => omega
          | succ k => simpa using hj3

/-- C9: starting from counter 0, the recovery perturbation fires at a sampling
interval only when that interval and the one before both had near-zero
displacement — never after a single low interval; firing resets the counter,
and an interval with significant displacement resets the counter. -/
theorem stuck_recovery_two_intervals (samples : List Bool) (i : ℕ) :
    ((stuckTriggers 0 samples).get? i = some true →
      1 ≤ i ∧ samples.get? i = some true ∧ samples.get? (i - 1) = some true) ∧
    (∀ (c : ℕ) (low : Bool), (stuckStep c low).2 = true → (stuckStep c low).1 = 0) ∧
    (∀ c : ℕ, stuckStep c false = (0, false)) := by
  refine ⟨(stuckTriggers_spec samples i).1, ?_, fun c => rfl⟩
  intro c low h
  cases low
  · simp [stuckStep] at h
  · by_cases hc : 2 ≤ c + 1
    · simp [stuckStep, hc]
    · simp [stuckStep, hc] at h

/-- Witness for C9: with samples low-low, recovery fires at the second interval
and both samples were low. -/
theorem stuck_recovery_two_intervals_witness :
    (stuckTriggers 0 [true, true]).get? 1 = some true ∧
    (1 ≤ 1 ∧ [true, true].get? 1 = some true ∧ [true, true].get? 0 = some true) := by
  refine ⟨rfl, (stuck_recovery_two_intervals [true, true] 1).1 rfl⟩

/-- A cell center lying inside an interval `[lo, hi]` lies inside the index
range the obstacle pass computes from that interval (clamped to the grid). -/
lemma cell_in_range {cs minW : ℚ} (hcs : 0 < cs) {n : ℕ} {gx : ℕ} (hgx : gx < n)
    {lo hi : ℚ} (hlo : lo ≤ minW + gx * cs + cs / 2) (hhi : minW + gx * cs + cs / 2 ≤ hi) :
    max 0 ⌊(lo - minW) / cs⌋ ≤ (gx : ℤ) ∧
    (gx : ℤ) ≤ min ((n : ℤ) - 1) ⌊(hi - minW) / cs⌋ := by
  constructor
  · refine max_le (by positivity) ?_
    have h1 : (lo - minW) / cs ≤ ((gx : ℤ) : ℚ) + 1 / 2 := by
      rw [div_le_iff hcs]
      push_cast
      nlinarith
    calc ⌊(lo - minW) / cs⌋ ≤ ⌊((gx : ℤ) : ℚ) + 1 / 2⌋ := Int.floor_le_floor h1
      _ = (gx : ℤ) + ⌊(1 / 2 : ℚ)⌋ := Int.floor_int_add _ _
      _ = (gx : ℤ) := by norm_num
  · refine le_min ?_ ?_
    · have : (gx : ℤ) < (n : ℤ) := by exact_mod_cast hgx
      omega
    · refine Int.le_floor.mpr ?_
      rw [le_div_iff hcs]
      push_cast
      nlinarith

/-- `blocksNode` depends only on the node's world position. -/
lemma blocksNode_congr {b : SBody} {n m : GridNode} (h : n.worldPos = m.worldPos) :
    blocksNode b n ↔ blocksNode b m := by
  simp [blocksNode, h]

/-- One obstacle-pass body never moves a node. -/
lemma obstaclePassBody_pos (g : GridParams) (b : SBody) (G : ℕ → ℕ → GridNode)
    (gx gz : ℕ) : (obstaclePassBody g b G gx gz).worldPos = (G gx gz).worldPos := by
  simp only [obstaclePassBody]
  split_ifs <;> rfl

/-- One obstacle-pass body leaves a valid cell walkable iff it was walkable and
the body does not block it. -/
lemma obstaclePassBody_walkable (g : GridParams) (hcs : 0 < g.cellSize)
    (b : SBody) (G : ℕ → ℕ → GridNode) (gx gz : ℕ)
    (hgx : gx < g.widthCells) (hgz : gz < g.depthCells)
    (hx : (G gx gz).worldPos.x = cellWorldX g gx)
    (hz : (G gx gz).worldPos.z = cellWorldZ g gz) :
    ((obstaclePassBody g b G gx gz).walkable = true ↔
      ((G gx gz).walkable = true ∧ ¬ blocksNode b (G gx gz))) := by
  simp only [obstaclePassBody]
  split_ifs with hcond
  · simp only [Bool.false_eq_true, false_iff, not_and, not_not]
    intro hw
    exact hcond.2.2.2.2.2.2
  · constructor
    · intro hw
      refine ⟨hw, fun hb => hcond ?_⟩
      obtain ⟨hsh, hst, hhf, hx1, hx2, hz1, hz2, hy1, hy2⟩ := hb
      rw [hx] at hx1 hx2
      rw [hz] at hz1 hz2
      obtain ⟨hrx1, hrx2⟩ := cell_in_range hcs hgx hx1 hx2
      obtain ⟨hrz1, hrz2⟩ := cell_in_range hcs hgz hz1 hz2
      exact ⟨hsh, hrx1, hrx2, hrz1, hrz2, hw,
        hsh, hst, hhf, by rw [hx]; exact hx1, by rw [hx]; exact hx2,
        by rw [hz]; exact hz1, by rw [hz]; exact hz2, hy1, hy2⟩
    · exact fun hw => hw.1

/-- The obstacle pass over a body list: the final walkable flag of a valid cell
is the provisional flag with every blocking body removed; positions are
untouched. -/
lemma obstacleFold_spec (g : GridParams) (hcs : 0 < g.cellSize)
    (gx gz : ℕ) (hgx : gx < g.widthCells) (hgz : gz < g.depthCells) :
    ∀ (bodies : List SBody) (G : ℕ → ℕ → GridNode),
      (G gx gz).worldPos.x = cellWorldX g gx →
      (G gx gz).worldPos.z = cellWorldZ g gz →
      ((bodies.foldl (fun grid b => obstaclePassBody g b grid) G) gx gz).worldPos =
        (G gx gz).worldPos ∧
      (((bodies.foldl (fun grid b => obstaclePassBody g b grid) G) gx gz).walkable = true ↔
        ((G gx gz).walkable = true ∧ ∀ b ∈ bodies, ¬ blocksNode b (G gx gz))) := by
  intro bodies
  induction bodies with
  | nil =>
    intro G hx hz
    exact ⟨rfl, by simp⟩
  | cons b bs ih =>
    intro G hx hz
    have hpos := obstaclePassBody_pos g b G gx gz
    have hx' : ((obstaclePassBody g b G) gx gz).worldPos.x = cellWorldX g gx := by
      rw [hpos]; exact hx
    have hz' : ((obstaclePassBody g b G) gx gz).worldPos.z = cellWorldZ g gz := by
      rw [hpos]; exact hz
    obtain ⟨ihpos, ihwalk⟩ := ih (obstaclePassBody g b G) hx' hz'
    have hstep := obstaclePassBody_walkable g hcs b G gx gz hgx hgz hx hz
    constructor
    · simpa [List.foldl_cons] using ihpos.trans hpos
    · rw [List.foldl_cons] at *
      rw [ihwalk, hstep]
      constructor
      · rintro ⟨⟨hw, hnb⟩, hall⟩
        refine ⟨hw, ?_⟩
        intro b' hb'
        rcases List.mem_cons.mp hb' with rfl | hb'
        · exact hnb
        · exact fun hblk => hall b' hb'
            ((blocksNode_congr hpos).mpr hblk)
      · rintro ⟨hw, hall⟩
        refine ⟨⟨hw, hall b (List.mem_cons_self _ _)⟩, ?_⟩
        intro b' hb' hblk
        exact hall b' (List.mem_cons_of_mem _ hb') ((blocksNode_congr hpos).mp hblk)

/-- C7: for every valid grid cell, after build the cell is walkable iff the
downward ray hit a surface whose slope angle is within the tolerance AND no
shaped static non-Heightfield (ground/terrain excluded) obstacle body's bounds
contain the cell center horizontally and the recorded ground height vertically
with the 0.1 tolerance; a cell with no ground hit is unwalkable. -/
theorem grid_walkable_iff (g : GridParams) (ray : ℕ → ℕ → Option GroundHit)
    (bodies : List SBody) (gx gz : ℕ) (hcs : 0 < g.cellSize)
    (hgx : gx < g.widthCells) (hgz : gz < g.depthCells) :
    ((generateGrid g ray bodies gx gz).walkable = true ↔
      ((∃ h, ray gx gz = some h ∧ h.slopeAngle ≤ g.maxSlopeAngle) ∧
        ∀ b ∈ bodies, ¬ blocksNode b (groundPass g ray gx gz))) ∧
    (ray gx gz = none → (generateGrid g ray bodies gx gz).walkable = false) := by
  have hx : (groundPass g ray gx gz).worldPos.x = cellWorldX g gx := by
    unfold groundPass
    cases ray gx gz <;> rfl
  have hz : (groundPass g ray gx gz).worldPos.z = cellWorldZ g gz := by
    unfold groundPass
    cases ray gx gz <;> rfl
  obtain ⟨-, hwalk⟩ := obstacleFold_spec g hcs gx gz hgx hgz bodies (groundPass g ray) hx hz
  have hg : (groundPass g ray gx gz).walkable = true ↔
      ∃ h, ray gx gz = some h ∧ h.slopeAngle ≤ g.maxSlopeAngle := by
    unfold groundPass
    cases hr : ray gx gz with
    | none => simp
    | some h => simp [hr]
  constructor
  · rw [show generateGrid g ray bodies gx gz =
      (bodies.foldl (fun grid b => obstaclePassBody g b grid) (groundPass g ray)) gx gz
        from rfl, hwalk, hg]
  · intro hnone
    have : ¬ ((generateGrid g ray bodies gx gz).walkable = true) := by
      rw [show generateGrid g ray bodies gx gz =
        (bodies.foldl (fun grid b => obstaclePassBody g b grid) (groundPass g ray)) gx gz
          from rfl, hwalk, hg]
      rintro ⟨⟨h, hh, -⟩, -⟩
      rw [hnone] at hh
      exact Option.noConfusion hh
    exact Bool.not_eq_true _ |>.mp this

/-- Witness for C7: a 1×1 grid with no ground hit yields an unwalkable cell. -/
theorem grid_walkable_iff_witness :
    (generateGrid ⟨1, 1, 1, 0, 0, 1⟩ (fun _ _ => none) [] 0 0).walkable = false :=
  (grid_walkable_iff ⟨1, 1, 1, 0, 0, 1⟩ (fun _ _ => none) [] 0 0
    (by norm_num) (by norm_num) (by norm_num)).2 rfl

/-- `getClosestPlayer` returns a member of its list. -/
lemma getClosestPlayer_mem {l : List PlayerObs} {p : PlayerObs}
    (h : getClosestPlayer l = some p) : p ∈ l := by
  cases l with
  | nil => simp [getClosestPlayer] at h
  | cons a as =>
    rw [getClosestPlayer_cons] at h
    have hp : closestFrom a as = p := by injection h
    obtain ⟨-, -, h3⟩ := closestFrom_spec as a
    rcases h3 with he | ⟨l1, l2, hsplit, -, -⟩
    · rw [← hp, he]
      exact List.mem_cons_self _ _
    · rw [← hp]
      set r := closestFrom a as with hr
      rw [hsplit]
      exact List.mem_cons_of_mem _ (by simp)

/-- A visible participant is drawn from the player list. -/
lemma mem_getVisiblePlayers_sub {p : PlayerObs} {players : List PlayerObs}
    {rnd : ℕ → ℚ} (h : p ∈ getVisiblePlayers players rnd) : p ∈ players := by
  unfold getVisiblePlayers at h
  obtain ⟨⟨i, q⟩, hmem, hq⟩ := List.mem_map.mp h
  have hf := (List.mem_filter.mp hmem).1
  have hg := List.mk_mem_enum_iff_get?.mp hf
  have hmemq : q ∈ players := List.get?_mem hg
  rw [show q = p from hq] at hmemq
  exact hmemq

/-- A visible participant is alive (the validity guard skips dead players). -/
lemma mem_getVisiblePlayers_alive {p : PlayerObs} {players : List PlayerObs}
    {rnd : ℕ → ℚ} (h : p ∈ getVisiblePlayers players rnd) : p.isAlive = true := by
  obtain ⟨i, hi⟩ := mem_getVisiblePlayers h
  by_contra hal
  have hfalse : p.isAlive = false := Bool.not_eq_true _ |>.mp hal
  rw [visOutcome, hfalse] at hi
  simp at hi

/-- An audible participant is drawn from the player list and is alive. -/
lemma mem_getAudiblePlayers_spec {p : PlayerObs} {players : List PlayerObs}
    (h : p ∈ getAudiblePlayers players) : p ∈ players ∧ p.isAlive = true := by
  unfold getAudiblePlayers at h
  have hm := List.mem_filter.mp h
  refine ⟨hm.1, ?_⟩
  have hc := hm.2
  unfold audibleCheck at hc
  exact (Bool.and_eq_true _ _ |>.mp hc).1

/-- The target `makeDecision` selects comes from the visible or the audible
set. -/
lemma makeDecision_target_spec (s : DecisionState) (vis aud : List PlayerObs)
    (p : PlayerObs) (h : (makeDecision s vis aud).target = some p) :
    p ∈ vis ∨ p ∈ aud := by
  by_cases hv : vis = []
  · by_cases ha : aud = []
    · exfalso
      subst hv
      subst ha
      simp only [makeDecision] at h
      split_ifs at h <;> simp_all
    · right
      have he : (makeDecision s vis aud).target = getClosestPlayer aud := by
        simp [makeDecision, hv, ha]
      rw [he] at h
      exact getClosestPlayer_mem h
  · left
    have he : (makeDecision s vis aud).target = getClosestPlayer vis := by
      simp [makeDecision, hv]
    rw [he] at h
    exact getClosestPlayer_mem h

/-- With both perception sets empty, `makeDecision` leaves the target none. -/
lemma makeDecision_target_none (s : DecisionState) :
    (makeDecision s [] []).target = none := by
  simp only [makeDecision]
  split_ifs <;> rfl

/-- A target selected by a decision step is the id of a living listed player. -/
lemma decideSim_target_live (s : SeekerSim) (players : List PlayerObs)
    (rnd : ℕ → ℚ) (now : ℤ) (tid : ℕ)
    (h : (decideSim s players rnd now).target = some tid) :
    ∃ p ∈ players, p.id = tid ∧ p.isAlive = true := by
  unfold decideSim at h
  simp only at h
  obtain ⟨q, hq, hid⟩ := Option.map_eq_some'.mp h
  rcases makeDecision_target_spec _ _ _ q hq with hv | ha
  · exact ⟨q, mem_getVisiblePlayers_sub hv, hid, mem_getVisiblePlayers_alive hv⟩
  · obtain ⟨hm, hal⟩ := mem_getAudiblePlayers_spec ha
    exact ⟨q, hm, hid, hal⟩

/-- With no live participant visible or audible, the decision step leaves the
target none. -/
lemma decideSim_target_none (s : SeekerSim) (players : List PlayerObs)
    (rnd : ℕ → ℚ) (now : ℤ)
    (hv : getVisiblePlayers players rnd = [])
    (ha : getAudiblePlayers players = []) :
    (decideSim s players rnd now).target = none := by
  unfold decideSim
  simp only [hv, ha, makeDecision_target_none, Option.map_none']

/-- C3 (amended): on a mid-interval Chasing tick with the target within the
capture radius, every listed player with the target's id is defeated through
the damage interface (health 0, not alive) and the pursuer keeps state Chasing
and the same target; the capture event `{targetId, position}` is sent exactly
once that tick if a networking room is attached to the pursuer and not at all
otherwise — no code in the repository attaches one, so the program never sends
the event; with a room attached, further in-radius ticks before the next
decision evaluation would send further events; at any subsequent decision
evaluation over the post-catch players the defeated id is never selected again
(and with nothing detectable the target is none). -/
theorem chase_capture_resolution (room : Bool) (s : SeekerSim)
    (players : List PlayerObs)
    (now : ℤ) (rnd : ℕ → ℚ) (mp : Vec3) (tid : ℕ) (t : PlayerObs)
    (hstate : s.state = .chasing)
    (hnodec : ¬ 1000 < now - s.lastDecisionTime)
    (htar : s.target = some tid)
    (hfind : players.find? (fun p => p.id = tid) = some t)
    (hdist : distSq s.pos t.pos < 2.25)
    (hhp : ∀ p ∈ players, p.id = tid → p.health ≤ 100) :
    (updateSim room s players now rnd mp).2.2 =
      (if room then [⟨t.id, t.pos⟩] else []) ∧
    (∀ p' ∈ (updateSim room s players now rnd mp).2.1, p'.id = tid →
      p'.health = 0 ∧ p'.isAlive = false) ∧
    (updateSim room s players now rnd mp).1.state = .chasing ∧
    (updateSim room s players now rnd mp).1.target = some tid ∧
    (∀ (s' : SeekerSim) (rnd' : ℕ → ℚ) (now' : ℤ),
      (decideSim s' (updateSim room s players now rnd mp).2.1 rnd' now').target ≠
        some tid) := by
  have hup : updateSim room s players now rnd mp =
      (s, players.map (fun p => if p.id = tid then takeDamage p 100 else p),
        if room then [⟨t.id, t.pos⟩] else []) := by
    unfold updateSim
    rw [if_neg hnodec]
    dsimp only
    rw [hstate]
    dsimp only
    unfold chaseSim
    rw [htar]
    dsimp only
    rw [hfind]
    dsimp only
    rw [if_pos hdist]
  have hdead : ∀ p' ∈ (updateSim room s players now rnd mp).2.1, p'.id = tid →
      p'.health = 0 ∧ p'.isAlive = false := by
    rw [hup]
    intro p' hp' hid
    obtain ⟨p, hp, hfp⟩ := List.mem_map.mp hp'
    by_cases hpid : p.id = tid
    · rw [if_pos hpid] at hfp
      have hple := hhp p hp hpid
      have hh : max 0 (p.health - 100) = 0 := by
        rw [max_eq_left]
        linarith
      rw [← hfp]
      unfold takeDamage
      rw [if_pos (by rw [hh])]
      exact ⟨hh, rfl⟩
    · rw [if_neg hpid] at hfp
      rw [← hfp] at hid
      exact absurd hid hpid
  refine ⟨by rw [hup], hdead, by rw [hup]; exact hstate, by rw [hup]; exact htar, ?_⟩
  intro s' rnd' now' hsel
  obtain ⟨p, hp, hid, halive⟩ := decideSim_target_live s' _ rnd' now' tid hsel
  obtain ⟨-, hdead'⟩ := hdead p hp hid
  rw [halive] at hdead'
  exact Bool.noConfusion hdead'

/-- Counterexample to C3 as stated: with the seeker Chasing player 7 at squared
distance 1 (< 1.5²), the last decision at time 0, and the room unattached as
in the program (no code ever assigns the AISeeker's room), the ticks at 500 ms
and 516 ms both lie inside the decision interval, the target is defeated on
the first, yet neither tick raises any capture event — zero events for the
catch, not exactly one. -/
theorem chase_capture_counterexample :
    (updateSim false
      ⟨.chasing, some 7, some ⟨1, 0, 0⟩, 0, 0, ⟨0, 0, 0⟩⟩
      [{ id := 7, isAlive := true, pos := ⟨1, 0, 0⟩, dist := 1, stealthLevel := 0,
         maxStealth := 100, isCrouching := false, isRunning := false, speed := 0,
         inView := true, eyeDist := 1, losHit := none }]
      500 (fun _ => 1 / 2) ⟨0, 0, 0⟩).2.2 = [] ∧
    (updateSim false
      ⟨.chasing, some 7, some ⟨1, 0, 0⟩, 0, 0, ⟨0, 0, 0⟩⟩
      [{ id := 7, isAlive := true, pos := ⟨1, 0, 0⟩, dist := 1, stealthLevel := 0,
         maxStealth := 100, isCrouching := false, isRunning := false, speed := 0,
         inView := true, eyeDist := 1, losHit := none }]
      500 (fun _ => 1 / 2) ⟨0, 0, 0⟩).2.1 =
      [{ id := 7, isAlive := false, pos := ⟨1, 0, 0⟩, dist := 1, stealthLevel := 0,
         maxStealth := 100, isCrouching := false, isRunning := false, speed := 0,
         inView := true, eyeDist := 1, losHit := none, health := 0 }] ∧
    (updateSim false
      (updateSim false
        ⟨.chasing, some 7, some ⟨1, 0, 0⟩, 0, 0, ⟨0, 0, 0⟩⟩
        [{ id := 7, isAlive := true, pos := ⟨1, 0, 0⟩, dist := 1, stealthLevel := 0,
           maxStealth := 100, isCrouching := false, isRunning := false, speed := 0,
           inView := true, eyeDist := 1, losHit := none }]
        500 (fun _ => 1 / 2) ⟨0, 0, 0⟩).1
      (updateSim false
        ⟨.chasing, some 7, some ⟨1, 0, 0⟩, 0, 0, ⟨0, 0, 0⟩⟩
        [{ id := 7, isAlive := true, pos := ⟨1, 0, 0⟩, dist := 1, stealthLevel := 0,
           maxStealth := 100, isCrouching := false, isRunning := false, speed := 0,
           inView := true, eyeDist := 1, losHit := none }]
        500 (fun _ => 1 / 2) ⟨0, 0, 0⟩).2.1
      516 (fun _ => 1 / 2) ⟨0, 0, 0⟩).2.2 = [] ∧
    ¬ (1000 : ℤ) < 500 - 0 ∧ ¬ (1000 : ℤ) < 516 - 0 := by
  have h1 : updateSim false
      ⟨.chasing, some 7, some ⟨1, 0, 0⟩, 0, 0, ⟨0, 0, 0⟩⟩
      [{ id := 7, isAlive := true, pos := ⟨1, 0, 0⟩, dist := 1, stealthLevel := 0,
         maxStealth := 100, isCrouching := false, isRunning := false, speed := 0,
         inView := true, eyeDist := 1, losHit := none }]
      500 (fun _ => 1 / 2) ⟨0, 0, 0⟩ =
      (⟨.chasing, some 7, some ⟨1, 0, 0⟩, 0, 0, ⟨0, 0, 0⟩⟩,
        [{ id := 7, isAlive := false, pos := ⟨1, 0, 0⟩, dist := 1, stealthLevel := 0,
           maxStealth := 100, isCrouching := false, isRunning := false, speed := 0,
           inView := true, eyeDist := 1, losHit := none, health := 0 }],
        []) := by
    norm_num [updateSim, chaseSim, takeDamage, distSq, List.find?]
  refine ⟨by rw [h1], by rw [h1], ?_, by norm_num, by norm_num⟩
  rw [h1]
  norm_num [updateSim, chaseSim, takeDamage, distSq, List.find?]

/-- Witness for C3 (amended): at the concrete capture tick no event is sent
with the room unattached (the program's configuration), one event would be
sent with a room attached, and the target is kept either way. -/
theorem chase_capture_resolution_witness :
    (updateSim false
      ⟨.chasing, some 7, some ⟨1, 0, 0⟩, 0, 0, ⟨0, 0, 0⟩⟩
      [{ id := 7, isAlive := true, pos := ⟨1, 0, 0⟩, dist := 1, stealthLevel := 0,
         maxStealth := 100, isCrouching := false, isRunning := false, speed := 0,
         inView := true, eyeDist := 1, losHit := none }]
      500 (fun _ => 1 / 2) ⟨0, 0, 0⟩).2.2 = [] ∧
    (updateSim true
      ⟨.chasing, some 7, some ⟨1, 0, 0⟩, 0, 0, ⟨0, 0, 0⟩⟩
      [{ id := 7, isAlive := true, pos := ⟨1, 0, 0⟩, dist := 1, stealthLevel := 0,
         maxStealth := 100, isCrouching := false, isRunning := false, speed := 0,
         inView := true, eyeDist := 1, losHit := none }]
      500 (fun _ => 1 / 2) ⟨0, 0, 0⟩).2.2 = [⟨7, ⟨1, 0, 0⟩⟩] ∧
    (updateSim false
      ⟨.chasing, some 7, some ⟨1, 0, 0⟩, 0, 0, ⟨0, 0, 0⟩⟩
      [{ id := 7, isAlive := true, pos := ⟨1, 0, 0⟩, dist := 1, stealthLevel := 0,
         maxStealth := 100, isCrouching := false, isRunning := false, speed := 0,
         inView := true, eyeDist := 1, losHit := none }]
      500 (fun _ => 1 / 2) ⟨0, 0, 0⟩).1.target = some 7 := by
  have hf := chase_capture_resolution false
    ⟨.chasing, some 7, some ⟨1, 0, 0⟩, 0, 0, ⟨0, 0, 0⟩⟩
    [{ id := 7, isAlive := true, pos := ⟨1, 0, 0⟩, dist := 1, stealthLevel := 0,
       maxStealth := 100, isCrouching := false, isRunning := false, speed := 0,
       inView := true, eyeDist := 1, losHit := none }]
    500 (fun _ => 1 / 2) ⟨0, 0, 0⟩ 7
    { id := 7, isAlive := true, pos := ⟨1, 0, 0⟩, dist := 1, stealthLevel := 0,
      maxStealth := 100, isCrouching := false, isRunning := false, speed := 0,
      inView := true, eyeDist := 1, losHit := none }
    rfl (by norm_num) rfl (by norm_num [List.find?]) (by norm_num [distSq])
    (by
      intro p hp hid
      rw [List.mem_singleton] at hp
      rw [hp])
  have ht := chase_capture_resolution true
    ⟨.chasing, some 7, some ⟨1, 0, 0⟩, 0, 0, ⟨0, 0, 0⟩⟩
    [{ id := 7, isAlive := true, pos := ⟨1, 0, 0⟩, dist := 1, stealthLevel := 0,
       maxStealth := 100, isCrouching := false, isRunning := false, speed := 0,
       inView := true, eyeDist := 1, losHit := none }]
    500 (fun _ => 1 / 2) ⟨0, 0, 0⟩ 7
    { id := 7, isAlive := true, pos := ⟨1, 0, 0⟩, dist := 1, stealthLevel := 0,
      maxStealth := 100, isCrouching := false, isRunning := false, speed := 0,
      inView := true, eyeDist := 1, losHit := none }
    rfl (by norm_num) rfl (by norm_num [List.find?]) (by norm_num [distSq])
    (by
      intro p hp hid
      rw [List.mem_singleton] at hp
      rw [hp])
  exact ⟨hf.1, ht.1, hf.2.2.2.1⟩

end HorseHeadFarms
